import Mathlib

/-!
Shallow embedding of the meme-rush sniper dispatch pipeline (src/index.ts).

The embedding models:
* the multi-endpoint broadcast `submitRawTx` (src/index.ts lines 63-114),
* the calldata encoder `encodeSwapParams` (lines 117-120),
* the dispatch pipeline `simulateAndBuyViaRouter` (lines 123-215),
* the event-filter callback for `TokenCreate` (lines 240-275),
* the periodic nonce refresh (lines 281-287),
* an interleaving model of the shared nonce counter accesses
  (read at line 194, increment at line 207).

Asynchronous effects (provider calls, signing, per-endpoint submissions)
are modelled by passing their outcomes in explicitly: each endpoint
submission is a response (or rejection) together with an arrival time,
and the per-submission timeout race is computed from those.
-/

namespace MemeSniper

/-- Decidable equality for `Except`, needed to evaluate the embedded
operations on concrete inputs. -/
instance {ε α : Type} [DecidableEq ε] [DecidableEq α] :
    DecidableEq (Except ε α) := fun x y =>
  match x, y with
  | Except.ok a, Except.ok b =>
    if h : a = b then isTrue (by rw [h])
    else isFalse (by intro hh; cases hh; exact h rfl)
  | Except.error a, Except.error b =>
    if h : a = b then isTrue (by rw [h])
    else isFalse (by intro hh; cases hh; exact h rfl)
  | Except.ok _, Except.error _ => isFalse (by intro hh; cases hh)
  | Except.error _, Except.ok _ => isFalse (by intro hh; cases hh)

/-- Router contract address `ADDRESSES.ROUTER` (src/index.ts line 10). -/
def ROUTER : String := "0xb300000b72DEAEb607a12d5f54773D1C19c7028d"

/-- Wrapped base-asset address `ADDRESSES.WBNB` (src/index.ts line 11). -/
def WBNB : String := "0xbb4CdB9CBd36B01bD1cBaEBF2De08d9173bc095c"

/-- Custom 4-byte method selector `SWAP_SELECTOR` (src/index.ts line 55). -/
def SWAP_SELECTOR : String := "0x810c705b"

/-- One endpoint submission: the eventual outcome of
`provider.broadcastTransaction` (an error, or a response whose optional
field is the transaction hash), together with its arrival time in ms. -/
structure Submission where
  response : Except String (Option String)
  time : Nat
deriving DecidableEq

/-- The per-endpoint result object built inside the submission task
(src/index.ts lines 86 and 89). -/
structure SubmissionResult where
  success : Bool
  hash : Option String
  error : Option String
deriving DecidableEq

/-- How one submission task settles (src/index.ts lines 73-90): the
broadcast response races a timeout rejection; a response without a hash
becomes the error `No transaction hash returned`; every throw is caught
and recorded as a failure result, so the task always fulfills. -/
def settle (timeoutMs : Nat) (s : Submission) : SubmissionResult :=
  if s.time < timeoutMs then
    match s.response with
    | Except.ok (some h) => ⟨true, some h, none⟩
    | Except.ok none => ⟨false, none, some "No transaction hash returned"⟩
    | Except.error e => ⟨false, none, some e⟩
  else ⟨false, none, some "Timeout"⟩

/-- The wall-clock time at which one submission task settles: its response
arrival, cut off by the per-endpoint timeout. -/
def settleTime (timeoutMs : Nat) (s : Submission) : Nat :=
  min s.time timeoutMs

/-- The time at which `await Promise.allSettled(submissions)` at
src/index.ts line 94 resolves: when the last submission has settled. -/
def allSettledTime (timeoutMs : Nat) (subs : List Submission) : Nat :=
  (subs.map (settleTime timeoutMs)).foldr max 0

/-- The check `result.value.success && result.value.hash`
(src/index.ts line 98). -/
def isSucc (r : SubmissionResult) : Bool :=
  r.success && r.hash.isSome

/-- The scan over the settled results in pool order (src/index.ts
lines 97-110): the first result that is a success with a hash. -/
def firstSuccess : List SubmissionResult → Option String
  | [] => none
  | r :: rs => if isSucc r then r.hash else firstSuccess rs

/-- The aggregate failure message thrown at src/index.ts line 113. -/
def aggregateFailureMsg : String :=
  "All RPC endpoints failed to broadcast transaction"

/-- `submitRawTx` (src/index.ts lines 63-114): all submissions are awaited
via `Promise.allSettled`, then the settled results are scanned in pool
order; the first success's hash is returned, and if none succeeded the
fixed aggregate error is thrown. -/
def submitRawTx (timeoutMs : Nat) (subs : List Submission) :
    Except String String :=
  match firstSuccess (subs.map (settle timeoutMs)) with
  | some h => Except.ok h
  | none => Except.error aggregateFailureMsg

/-- A decimal amount string such as `0.0001`, as mantissa and number of
fractional digits: the value is `mantissa / 10 ^ exponent`. -/
structure Decimal where
  mantissa : Nat
  exponent : Nat
deriving DecidableEq

/-- `ethers.parseEther` on a decimal amount with at most 18 fractional
digits: the amount in the ledger's smallest unit (wei). -/
def parseEther (d : Decimal) : Nat :=
  d.mantissa * 10 ^ 18 / 10 ^ d.exponent

/-- One 32-byte word of the ABI encoding: a number or an address. -/
inductive AbiWord
  | num (n : Nat)
  | addr (a : String)
deriving DecidableEq

/-- `encodeSwapParams` (src/index.ts lines 117-120): the ABI encoding of
`swapExactETHForTokens(uint256 amountOutMin, address[] path, address to,
uint256 deadline)` with the standard selector stripped.  Head words:
`amountOutMin`, the byte offset `0x80` of the dynamic `path` array, `to`,
`deadline`; tail: the array length followed by its elements. -/
def encodeSwapParams (amountOutMin : Nat) (path : List String)
    (recipient : String) (deadline : Nat) : List AbiWord :=
  [AbiWord.num amountOutMin, AbiWord.num 0x80, AbiWord.addr recipient,
   AbiWord.num deadline, AbiWord.num path.length] ++ path.map AbiWord.addr

/-- The transaction request built at src/index.ts lines 188-196; its
calldata is the custom selector followed by the encoded parameters. -/
structure TxRequest where
  toAddress : String
  selector : String
  params : List AbiWord
  value : Nat
  gasLimit : Nat
  gasPrice : Nat
  nonce : Nat
  chainId : Nat
deriving DecidableEq

/-- The `{ success, txHash?, error? }` value `simulateAndBuyViaRouter`
resolves to (src/index.ts lines 209 and 213). -/
structure DispatchResult where
  succeeded : Bool
  txHash : Option String
  error : Option String
deriving DecidableEq

/-- The outcomes of the external calls one dispatch instance performs:
`Date.now()`, `wallet.getAddress()`, the simulation
`wallet.provider.call` (decoded amounts on success), `getFeeData` (whose
`gasPrice` may be null), `wallet.signTransaction`, and the per-endpoint
broadcast submissions. -/
structure Env where
  now : Nat
  getAddress : Except String String
  simCall : Except String (List Nat)
  getFeeData : Except String (Option Nat)
  sign : Except String String
  broadcast : List Submission

/-- Everything observable from one run of the dispatch pipeline: the
resolved dispatch result, whether the simulation succeeded (none when the
run failed before the simulation step), the transaction request that was
built (none when the run failed before building), and the shared nonce
counter's value after the run. -/
structure RunOutput where
  result : DispatchResult
  simulationSuccess : Option Bool
  builtTx : Option TxRequest
  nonceAfter : Nat
deriving DecidableEq

/-- `simulateAndBuyViaRouter` (src/index.ts lines 123-215).  The whole
body is wrapped in try/catch, so every thrown error resolves to a
`{ success: false, error }` value.  The simulation has its own inner
try/catch: its failure only clears the `simulationSuccess` flag.  The
shared nonce counter is read when the request is built (line 194) and
incremented only after a successful broadcast (line 207); the counter's
value is passed in as `nonceVal` and the value after the run is returned. -/
def simulateAndBuyViaRouter (tokenAddress : String) (amount : Decimal)
    (env : Env) (nonceVal : Nat) : RunOutput :=
  let funds := parseEther amount
  let path := [WBNB, tokenAddress]
  let deadline := env.now / 1000 + 20 * 60
  match env.getAddress with
  | Except.error e => ⟨⟨false, none, some e⟩, none, none, nonceVal⟩
  | Except.ok walletAddr =>
    let amountOutMin := 0
    let paramsEncoded := encodeSwapParams amountOutMin path walletAddr deadline
    let simulationSuccess :=
      match env.simCall with
      | Except.ok _ => true
      | Except.error _ => false
    match env.getFeeData with
    | Except.error e =>
      ⟨⟨false, none, some e⟩, some simulationSuccess, none, nonceVal⟩
    | Except.ok feeData =>
      let gasPrice := feeData.getD (3 * 10 ^ 9)
      let txRequest : TxRequest :=
        ⟨ROUTER, SWAP_SELECTOR, paramsEncoded, funds, 500000, gasPrice,
         nonceVal, 56⟩
      match env.sign with
      | Except.error e =>
        ⟨⟨false, none, some e⟩, some simulationSuccess, some txRequest,
         nonceVal⟩
      | Except.ok _ =>
        match submitRawTx 30000 env.broadcast with
        | Except.error e =>
          ⟨⟨false, none, some e⟩, some simulationSuccess, some txRequest,
           nonceVal⟩
        | Except.ok h =>
          ⟨⟨true, some h, none⟩, some simulationSuccess, some txRequest,
           nonceVal + 1⟩

/-- The `TokenCreate` event payload (src/index.ts lines 41-46 and 240). -/
structure EventRecord where
  creator : String
  token : String
  requestId : Nat
  name : String
  symbol : String
  totalSupply : Nat
  launchTime : Nat
  launchFee : Nat
deriving DecidableEq

/-- JavaScript `toLowerCase` on the identifier strings in play. -/
def strToLower (s : String) : String :=
  ⟨s.data.map Char.toLower⟩

/-- JavaScript `startsWith`. -/
def strStartsWith (s pre : String) : Bool :=
  pre.data.isPrefixOf s.data

/-- The event predicate `token.toLowerCase().startsWith('0x4444')`
(src/index.ts line 244). -/
def tokenPrefixOk (token : String) : Bool :=
  strStartsWith (strToLower token) "0x4444"

/-- The `TokenCreate` callback (src/index.ts lines 240-275): a record
whose token fails the prefix predicate returns early and spawns nothing;
a matching record runs exactly one dispatch instance. -/
def onTokenCreate (rec : EventRecord) (amount : Decimal) (env : Env)
    (nonceVal : Nat) : List RunOutput :=
  if tokenPrefixOk rec.token then
    [simulateAndBuyViaRouter rec.token amount env nonceVal]
  else []

/-- The periodic nonce refresh body (src/index.ts lines 281-287): adopt
the externally observed count only when it is strictly greater. -/
def refreshNonce (value : Nat) (latestNonce : Nat) : Nat :=
  if latestNonce > value then latestNonce else value

/-- One access to the shared nonce counter by dispatch instance `inst`:
`read` models `nonce: currentNonce.value` at src/index.ts line 194 and
`incr` models `currentNonce.value++` at line 207. -/
inductive NonceAct
  | read (inst : Nat)
  | incr (inst : Nat)
deriving DecidableEq

/-- Run an interleaved schedule of counter accesses: a `read` records the
pair (instance, value read) and leaves the counter unchanged; an `incr`
bumps the counter.  Returns the final counter and the recorded reads. -/
def execNonceActs : List NonceAct → Nat → Nat × List (Nat × Nat)
  | [], c => (c, [])
  | NonceAct.read i :: rest, c =>
    let r := execNonceActs rest c
    (r.1, (i, c) :: r.2)
  | NonceAct.incr _ :: rest, c => execNonceActs rest (c + 1)

/-- The nonce values the instances of a schedule reserved (read). -/
def reservedValues (sched : List NonceAct) (init : Nat) : List Nat :=
  (execNonceActs sched init).2.map Prod.snd

/-- The schedule in which the K dispatch instances do not overlap: each
instance's read and increment complete before the next instance reads. -/
def serialSched : Nat → List NonceAct
  | 0 => []
  | k + 1 => serialSched k ++ [NonceAct.read k, NonceAct.incr k]

/-- Substring occurrence over character lists (for stating what the
aggregate error message does and does not mention). -/
def containsSub (pat : List Char) : List Char → Bool
  | [] => pat.isPrefixOf []
  | c :: rest => pat.isPrefixOf (c :: rest) || containsSub pat rest

/-- `strContains s pat` is true when `pat` occurs in `s`. -/
def strContains (s pat : String) : Bool :=
  containsSub pat.data s.data

/-- An endpoint that accepts the transaction late (4000 ms), hash
`0xaaaa`. -/
def slowWinner : Submission := ⟨Except.ok (some "0xaaaa"), 4000⟩

/-- An endpoint that accepts the transaction early (50 ms), hash
`0xbbbb`. -/
def fastWinner : Submission := ⟨Except.ok (some "0xbbbb"), 50⟩

/-- An endpoint whose submission is rejected with `connection refused`. -/
def failSub0 : Submission := ⟨Except.error "connection refused", 10⟩

/-- An endpoint whose submission is rejected with `insufficient funds`. -/
def failSub1 : Submission := ⟨Except.error "insufficient funds", 20⟩

/-- An endpoint whose submission is rejected with `nonce too low`. -/
def failSub2 : Submission := ⟨Except.error "nonce too low", 30⟩

/-- An endpoint that accepts the transaction at 20 ms, hash `0xabc`. -/
def okSub : Submission := ⟨Except.ok (some "0xabc"), 20⟩

/-- A dispatch environment in which every external call succeeds. -/
def envOk : Env :=
  ⟨1700000000000, Except.ok "0xwallet", Except.ok [5, 42],
   Except.ok (some 1000000000), Except.ok "0xsigned",
   [⟨Except.ok (some "0xhash1"), 30⟩]⟩

/-- A dispatch environment in which every broadcast endpoint fails (the
simulation also reverts, which the pipeline absorbs). -/
def envAllFail : Env :=
  ⟨1700000000000, Except.ok "0xwallet", Except.error "revert",
   Except.ok (some 1000000000), Except.ok "0xsigned",
   [failSub0, failSub1]⟩

/-- An event record whose token does not carry the `0x4444` prefix. -/
def recBad : EventRecord :=
  ⟨"0xcreator", "0x1234abc", 1, "Tok", "TK", 1000, 0, 0⟩

/-- A successful settle carries a hash. -/
theorem settle_success_hash (T : Nat) (s : Submission)
    (h : (settle T s).success = true) : (settle T s).hash.isSome = true := by
  unfold settle at h ⊢
  by_cases ht : s.time < T
  · rw [if_pos ht] at h ⊢
    cases hr : s.response with
    | ok o =>
      rw [hr] at h
      cases o with
      | some v => rfl
      | none => exact Bool.noConfusion h
    | error e =>
      rw [hr] at h
      exact Bool.noConfusion h
  · rw [if_neg ht] at h
    simp at h

/-- Accessing an element of the settled-results list is settling the
corresponding submission. -/
theorem get_map_settle (T : Nat) (subs : List Submission) (j : Nat)
    (h1 : j < (subs.map (settle T)).length) (h2 : j < subs.length) :
    (subs.map (settle T)).get ⟨j, h1⟩ = settle T (subs.get ⟨j, h2⟩) := by
  induction subs generalizing j with
  | nil => exact absurd h2 (Nat.not_lt_zero j)
  | cons a rest ih =>
    cases j with
    | zero => rfl
    | succ k => exact ih k (by simpa using h1) (Nat.lt_of_succ_lt_succ h2)

/-- The pool-order scan returns the hash of the lowest-index success. -/
theorem firstSuccess_eq_get (rs : List SubmissionResult) (i : Nat)
    (hi : i < rs.length)
    (hb : ∀ j, (hj : j < i) →
      isSucc (rs.get ⟨j, Nat.lt_trans hj hi⟩) = false)
    (hs : isSucc (rs.get ⟨i, hi⟩) = true) :
    firstSuccess rs = (rs.get ⟨i, hi⟩).hash := by
  induction rs generalizing i with
  | nil => exact absurd hi (Nat.not_lt_zero i)
  | cons r rest ih =>
    cases i with
    | zero =>
      have hs0 : isSucc r = true := hs
      show (if isSucc r then r.hash else firstSuccess rest) = r.hash
      rw [hs0]
      rfl
    | succ j =>
      have h0 : isSucc r = false := hb 0 (Nat.succ_pos j)
      show (if isSucc r then r.hash else firstSuccess rest) =
        (rest.get ⟨j, Nat.lt_of_succ_lt_succ hi⟩).hash
      simp only [h0, Bool.false_eq_true, if_false]
      exact ih j (Nat.lt_of_succ_lt_succ hi)
        (fun j2 hj2 => hb (j2 + 1) (Nat.succ_lt_succ hj2)) hs

/-- When every result fails, the pool-order scan finds nothing. -/
theorem firstSuccess_none (rs : List SubmissionResult)
    (h : ∀ r ∈ rs, isSucc r = false) : firstSuccess rs = none := by
  induction rs with
  | nil => rfl
  | cons r rest ih =>
    have h0 : isSucc r = false := h r (by simp)
    show (if isSucc r then r.hash else firstSuccess rest) = none
    simp only [h0, Bool.false_eq_true, if_false]
    exact ih (fun r2 hr2 => h r2 (by simp [hr2]))

/-- Executing a concatenated schedule of counter accesses is executing
the two halves in sequence. -/
theorem execNonceActs_append (l1 l2 : List NonceAct) (c : Nat) :
    execNonceActs (l1 ++ l2) c =
      ((execNonceActs l2 (execNonceActs l1 c).1).1,
       (execNonceActs l1 c).2 ++ (execNonceActs l2 (execNonceActs l1 c).1).2) := by
  induction l1 generalizing c with
  | nil => simp [execNonceActs]
  | cons a rest ih =>
    cases a with
    | read i => simp [execNonceActs, ih]
    | incr i => simp [execNonceActs, ih]

/-- Executing the non-overlapping schedule of K instances from `init`
reads `init + j` for instance `j` and leaves the counter at `init + K`. -/
theorem execNonceActs_serial (K init : Nat) :
    execNonceActs (serialSched K) init =
      (init + K, (List.range K).map (fun j => (j, init + j))) := by
  induction K with
  | zero => simp [serialSched, execNonceActs]
  | succ k ih =>
    rw [serialSched, execNonceActs_append, ih]
    simp [execNonceActs, List.range_succ]
    omega

/-- Claim C1 (code bug evidence): `submitRawTx` does not resolve at the
first-arriving success.  With two endpoints that both accept — the slower
one (4000 ms) at pool index 0 and the faster one (50 ms) at pool index 1 —
the code awaits every settlement (`Promise.allSettled`), so its await
resolves only at 4000 ms although a success settled at 50 ms, and the
returned hash is the pool-index-0 hash `0xaaaa`, not the hash `0xbbbb` of
the first-arriving success. -/
theorem submitRawTx_awaits_all_and_picks_pool_order :
    submitRawTx 5000 [slowWinner, fastWinner] = Except.ok "0xaaaa" ∧
    (settle 5000 fastWinner).success = true ∧
    (settle 5000 fastWinner).hash = some "0xbbbb" ∧
    settleTime 5000 fastWinner = 50 ∧
    settleTime 5000 slowWinner = 4000 ∧
    allSettledTime 5000 [slowWinner, fastWinner] = 4000 ∧
    ("0xaaaa" : String) ≠ "0xbbbb" := by decide

/-- Claim C2 (counterexample): nonce reservation is not an atomic
read-and-increment.  Under the interleaving in which two dispatch
instances both read the shared counter (src/index.ts line 194) before
either increments it (line 207), both reserve the value 5: the reserved
values are [5, 5], with a duplicate, not the gap-free set {5, 6}. -/
theorem overlapping_dispatches_duplicate_nonce :
    reservedValues [NonceAct.read 0, NonceAct.read 1, NonceAct.incr 0,
      NonceAct.incr 1] 5 = [5, 5] ∧
    ¬ (reservedValues [NonceAct.read 0, NonceAct.read 1, NonceAct.incr 0,
      NonceAct.incr 1] 5).Nodup := by decide

/-- Claim C2 (amended): the code reserves nonces by a plain read of the
shared counter before building and a separate increment after a
successful broadcast; when the K instances do not overlap — each
instance's read and increment complete before the next instance reads —
the reserved values are exactly initial, initial+1, …, initial+K-1 and
the counter ends at initial+K. -/
theorem serial_dispatches_reserve_contiguous_nonces (K init : Nat) :
    reservedValues (serialSched K) init =
      (List.range K).map (fun j => init + j) ∧
    (execNonceActs (serialSched K) init).1 = init + K := by
  constructor
  · unfold reservedValues
    rw [execNonceActs_serial]
    simp
  · rw [execNonceActs_serial]

/-- Claim C3 (counterexample): when all endpoints fail, the aggregate
error is the fixed message `All RPC endpoints failed to broadcast
transaction`, which mentions neither of the two distinct per-endpoint
causes; moreover a one-endpoint failure produces the identical message,
so the message cannot enumerate exactly N causes. -/
theorem submitRawTx_error_omits_causes :
    submitRawTx 5000 [failSub0, failSub1] = Except.error aggregateFailureMsg ∧
    (settle 5000 failSub0).error = some "connection refused" ∧
    (settle 5000 failSub1).error = some "insufficient funds" ∧
    strContains aggregateFailureMsg "connection refused" = false ∧
    strContains aggregateFailureMsg "insufficient funds" = false ∧
    submitRawTx 5000 [failSub2] = Except.error aggregateFailureMsg := by decide

/-- Claim C3 (amended): for every broadcast attempt in which all endpoint
submissions fail, `submitRawTx` fails with the fixed aggregate error
message, which does not enumerate the per-endpoint causes (those are only
logged endpoint by endpoint). -/
theorem submitRawTx_all_failed_fixed_message (T : Nat)
    (subs : List Submission)
    (h : ∀ s ∈ subs, (settle T s).success = false) :
    submitRawTx T subs = Except.error aggregateFailureMsg := by
  have hall : ∀ r ∈ subs.map (settle T), isSucc r = false := by
    intro r hr
    rw [List.mem_map] at hr
    obtain ⟨s, hsmem, rfl⟩ := hr
    unfold isSucc
    rw [h s hsmem]
    rfl
  unfold submitRawTx
  rw [firstSuccess_none _ hall]

/-- Witness for the amended C3 theorem at a concrete two-endpoint
all-failure attempt. -/
theorem submitRawTx_all_failed_fixed_message_witness :
    submitRawTx 5000 [failSub0, failSub1] =
      Except.error aggregateFailureMsg :=
  submitRawTx_all_failed_fixed_message 5000 [failSub0, failSub1] (by decide)

/-- Claim C4 (counterexample): after an aggregate broadcast failure the
shared nonce counter is unchanged (the read value 5 is never
incremented), so the next dispatch instance reuses 5 rather than a
strictly greater value — the claim's `counter stands one ahead` is
false. -/
theorem nonce_unchanged_on_aggregate_failure :
    (simulateAndBuyViaRouter "0x4444beef" ⟨1, 4⟩ envAllFail 5).result.succeeded
      = false ∧
    (simulateAndBuyViaRouter "0x4444beef" ⟨1, 4⟩ envAllFail 5).result.error =
      some aggregateFailureMsg ∧
    (simulateAndBuyViaRouter "0x4444beef" ⟨1, 4⟩ envAllFail 5).nonceAfter = 5 ∧
    (simulateAndBuyViaRouter "0x4444beef" ⟨1, 4⟩ envAllFail 5).nonceAfter ≠ 6 :=
  by decide

/-- Claim C4 (amended): the shared nonce counter advances by one exactly
when the dispatch instance succeeds; every failure — at build, sign, or
aggregate broadcast failure — leaves the counter unchanged, so a failed
instance's nonce value is reused by the next instance rather than
stranded. -/
theorem nonceAfter_increment_iff_success (tokenAddress : String)
    (amount : Decimal) (env : Env) (n : Nat) :
    (simulateAndBuyViaRouter tokenAddress amount env n).nonceAfter =
      (if (simulateAndBuyViaRouter tokenAddress amount env n).result.succeeded
        then n + 1 else n) := by
  cases env with
  | mk now ga sc gf sg bc =>
    cases ga with
    | error e => simp [simulateAndBuyViaRouter]
    | ok w =>
      cases gf with
      | error e => simp [simulateAndBuyViaRouter]
      | ok fd =>
        cases sg with
        | error e => simp [simulateAndBuyViaRouter]
        | ok s =>
          cases h : submitRawTx 30000 bc <;>
            simp [simulateAndBuyViaRouter, h]

/-- Claim C5: the periodic nonce refresh is monotonic and idempotent: it
adopts the external value exactly when it is strictly greater (the
result is the maximum of the two), it never decreases the counter, and
repeating it with the same external value changes nothing. -/
theorem refreshNonce_monotone_idempotent (v e : Nat) :
    refreshNonce v e = max v e ∧ v ≤ refreshNonce v e ∧
    refreshNonce (refreshNonce v e) e = refreshNonce v e := by
  unfold refreshNonce
  rcases Nat.lt_or_ge v e with h | h
  · have hmax : max v e = e := Nat.max_eq_right (Nat.le_of_lt h)
    simp [h, hmax, Nat.le_of_lt h, Nat.lt_irrefl]
  · have hmax : max v e = v := Nat.max_eq_left h
    have hnot : ¬ v < e := Nat.not_lt.mpr h
    simp [hnot, hmax]

/-- Claim C6: the simulation outcome does not interfere with the
dispatch: two runs identical except for the simulation call's outcome
build the same transaction request, resolve to the same dispatch result,
and leave the nonce counter at the same value. -/
theorem simulation_does_not_affect_result (tokenAddress : String)
    (amount : Decimal) (env : Env)
    (s1 s2 : Except String (List Nat)) (n : Nat) :
    (simulateAndBuyViaRouter tokenAddress amount
        { env with simCall := s1 } n).result =
      (simulateAndBuyViaRouter tokenAddress amount
        { env with simCall := s2 } n).result ∧
    (simulateAndBuyViaRouter tokenAddress amount
        { env with simCall := s1 } n).builtTx =
      (simulateAndBuyViaRouter tokenAddress amount
        { env with simCall := s2 } n).builtTx ∧
    (simulateAndBuyViaRouter tokenAddress amount
        { env with simCall := s1 } n).nonceAfter =
      (simulateAndBuyViaRouter tokenAddress amount
        { env with simCall := s2 } n).nonceAfter := by
  cases env with
  | mk now ga sc gf sg bc =>
    simp only [simulateAndBuyViaRouter]
    cases ga with
    | error e => simp
    | ok w =>
      cases gf with
      | error e => simp
      | ok fd =>
        cases sg with
        | error e => simp
        | ok s =>
          cases h : submitRawTx 30000 bc <;> simp [h]

/-- Claim C7: the transaction request is deterministic in the inputs,
with destination the fixed router contract, calldata the fixed 4-byte
selector `0x810c705b` followed by the ABI encoding of minimumOutput 0,
path [base asset, target], the own wallet address, and a deadline of the
build time plus 20 minutes; value is the amount in the smallest unit,
the gas limit is the fixed ceiling 500000, the gas price is the live fee
estimate with the hardcoded 3 gwei floor fallback, and the chain id is
fixed to 56. -/
theorem builtTx_fields (tokenAddress : String) (amount : Decimal)
    (env : Env) (n : Nat) (walletAddr : String) (fee : Option Nat)
    (haddr : env.getAddress = Except.ok walletAddr)
    (hfee : env.getFeeData = Except.ok fee) :
    (simulateAndBuyViaRouter tokenAddress amount env n).builtTx =
      some ⟨ROUTER, SWAP_SELECTOR,
        encodeSwapParams 0 [WBNB, tokenAddress] walletAddr
          (env.now / 1000 + 20 * 60),
        parseEther amount, 500000, fee.getD (3 * 10 ^ 9), n, 56⟩ := by
  cases env with
  | mk now ga sc gf sg bc =>
    replace haddr : ga = Except.ok walletAddr := haddr
    replace hfee : gf = Except.ok fee := hfee
    subst haddr
    subst hfee
    simp only [simulateAndBuyViaRouter]
    cases sg with
    | error e => rfl
    | ok s =>
      cases h : submitRawTx 30000 bc <;> simp [h]

/-- Witness for the C7 theorem at a concrete fully-successful
environment. -/
theorem builtTx_fields_witness :
    (simulateAndBuyViaRouter "0x4444beef" ⟨1, 4⟩ envOk 7).builtTx =
      some ⟨ROUTER, SWAP_SELECTOR,
        encodeSwapParams 0 [WBNB, "0x4444beef"] "0xwallet"
          (envOk.now / 1000 + 20 * 60),
        parseEther ⟨1, 4⟩, 500000, (some 1000000000).getD (3 * 10 ^ 9),
        7, 56⟩ :=
  builtTx_fields "0x4444beef" ⟨1, 4⟩ envOk 7 "0xwallet" (some 1000000000)
    rfl rfl

/-- Claim C8: the event filter applies the case-insensitive prefix
predicate to the token identifier; a non-matching record spawns zero
dispatch instances, a matching record spawns exactly one, and the
predicate is invariant under case changes of the identifier. -/
theorem tokenCreate_filter (rec : EventRecord) (amount : Decimal)
    (env : Env) (n : Nat) (s t : String) :
    (onTokenCreate rec amount env n).length =
      (if tokenPrefixOk rec.token then 1 else 0) ∧
    (tokenPrefixOk rec.token = false → onTokenCreate rec amount env n = []) ∧
    (strToLower s = strToLower t → tokenPrefixOk s = tokenPrefixOk t) := by
  refine ⟨?_, ?_, ?_⟩
  · unfold onTokenCreate
    split <;> rfl
  · intro h
    simp [onTokenCreate, h]
  · intro h
    unfold tokenPrefixOk
    rw [h]

/-- Witness for the C8 theorem: the non-matching record `0x1234abc`
spawns no dispatch, and the predicate agrees on `0X4444AB` and
`0x4444ab`. -/
theorem tokenCreate_filter_witness :
    onTokenCreate recBad ⟨1, 4⟩ envOk 0 = [] ∧
    tokenPrefixOk "0X4444AB" = tokenPrefixOk "0x4444ab" := by
  constructor
  · exact (tokenCreate_filter recBad ⟨1, 4⟩ envOk 0 "" "").2.1 (by decide)
  · exact (tokenCreate_filter recBad ⟨1, 4⟩ envOk 0 "0X4444AB"
      "0x4444ab").2.2 (by decide)

/-- Claim C9: a dispatch instance always resolves to a well-formed
`{ success, txHash?, error? }` value — a success with a hash and no
error, or a failure with an error and no hash — for every combination of
external-call outcomes; no execution path escapes by throwing. -/
theorem dispatch_always_resolves (tokenAddress : String) (amount : Decimal)
    (env : Env) (n : Nat) :
    ((simulateAndBuyViaRouter tokenAddress amount env n).result.succeeded
        = true ∧
      (simulateAndBuyViaRouter tokenAddress amount env n).result.txHash.isSome
        = true ∧
      (simulateAndBuyViaRouter tokenAddress amount env n).result.error
        = none) ∨
    ((simulateAndBuyViaRouter tokenAddress amount env n).result.succeeded
        = false ∧
      (simulateAndBuyViaRouter tokenAddress amount env n).result.txHash
        = none ∧
      (simulateAndBuyViaRouter tokenAddress amount env n).result.error.isSome
        = true) := by
  cases env with
  | mk now ga sc gf sg bc =>
    simp only [simulateAndBuyViaRouter]
    cases ga with
    | error e => right; simp
    | ok w =>
      cases gf with
      | error e => right; simp
      | ok fd =>
        cases sg with
        | error e => right; simp
        | ok s =>
          cases h : submitRawTx 30000 bc with
          | error e => right; simp [h]
          | ok v => left; simp [h]

/-- Claim C10: whenever at least one endpoint submission succeeds, the
hash returned is that of the successful endpoint with the lowest pool
index, and the selection is a function of the settled per-endpoint
outcome list alone — two submission lists with identical settled
outcomes yield identical results regardless of arrival times. -/
theorem submitRawTx_lowest_index_success (T : Nat)
    (subs : List Submission) (i : Nat) (hi : i < subs.length)
    (hb : ∀ j, (hj : j < i) →
      (settle T (subs.get ⟨j, Nat.lt_trans hj hi⟩)).success = false)
    (hs : (settle T (subs.get ⟨i, hi⟩)).success = true) :
    submitRawTx T subs =
      Except.ok ((settle T (subs.get ⟨i, hi⟩)).hash.getD "") ∧
    ∀ T1 T2 (s1 s2 : List Submission),
      s1.map (settle T1) = s2.map (settle T2) →
      submitRawTx T1 s1 = submitRawTx T2 s2 := by
  constructor
  · have hmaplen : i < (subs.map (settle T)).length := by
      rw [List.length_map]
      exact hi
    have hb2 : ∀ j, (hj : j < i) →
        isSucc ((subs.map (settle T)).get
          ⟨j, Nat.lt_trans hj hmaplen⟩) = false := by
      intro j hj
      rw [get_map_settle T subs j _ (Nat.lt_trans hj hi)]
      unfold isSucc
      rw [hb j hj]
      rfl
    have hs2 : isSucc ((subs.map (settle T)).get ⟨i, hmaplen⟩) = true := by
      rw [get_map_settle T subs i _ hi]
      unfold isSucc
      rw [hs, settle_success_hash T _ hs]
      rfl
    have hfs := firstSuccess_eq_get (subs.map (settle T)) i hmaplen hb2 hs2
    rw [get_map_settle T subs i _ hi] at hfs
    obtain ⟨h0, hh⟩ :=
      Option.isSome_iff_exists.mp (settle_success_hash T _ hs)
    unfold submitRawTx
    rw [hfs, hh]
    rfl
  · intro T1 T2 s1 s2 h
    unfold submitRawTx
    rw [h]

/-- Witness for the C10 theorem: with a rejected endpoint at pool index 0
and an accepting endpoint at pool index 1, the returned hash is the
accepting endpoint's. -/
theorem submitRawTx_lowest_index_success_witness :
    submitRawTx 5000 [failSub0, okSub] = Except.ok "0xabc" := by
  have h := submitRawTx_lowest_index_success 5000 [failSub0, okSub] 1
    (by decide)
    (by
      intro j hj
      have hj0 : j = 0 := Nat.lt_one_iff.mp hj
      subst hj0
      show (settle 5000 failSub0).success = false
      decide)
    (by decide)
  exact h.1

end MemeSniper
